/-
Verification of the Caltech dataset adapters (torchvision/datasets/caltech.py).

The Python module defines two indexed dataset views, `Caltech101` (variant A)
and `Caltech256` (variant B).  Each scans a directory tree once at
construction to build a category list and two parallel per-sample arrays
(`index`, the 1-based ordinal within the category, and `y`, the 0-based
category id), and resolves a lookup `get(i)` to an image path plus a target.

The shallow embedding below models:
  * the filesystem as a record of the directory listings the code reads;
  * Python list subscripting (`xs[i]`, negative indices wrap) by `pyGet`;
  * Python `list.remove` (raises ValueError when absent) by `pyRemove`;
  * Python `sorted` on strings by insertion sort over the string order;
  * `f"{n:04d}"` zero padding by `zeroPad`;
  * the filesystem side effects of construction / download as an explicit
    trace of `Effect` values;
  * opened images and loaded annotation files by the path they are read
    from (image decoding and `.mat` parsing are out of scope);
  * `transform` / `target_transform` as absent (`None`), as in the default
    construction — no claim mentions them.
-/
import Mathlib

set_option linter.unusedVariables false
set_option linter.unnecessarySimpa false

/-! Section: Python-level primitives -/

/-- Model of `os.path.join a b` with a single separator. -/
def pathJoin (a b : String) : String := a ++ "/" ++ b

/-- Python list subscripting `xs[i]`: a negative index counts from the end;
an index out of `[-len, len)` raises `IndexError`, modelled as `none`. -/
def pyGet {α : Type} (xs : List α) (i : Int) : Option α :=
  if 0 ≤ i then xs[i.toNat]?
  else if 0 ≤ (xs.length : Int) + i then xs[((xs.length : Int) + i).toNat]?
  else none

/-- Python `xs.remove(a)`: removes the first occurrence of `a`, raising
`ValueError` (modelled as `none`) when `a` is not in the list. -/
def pyRemove (xs : List String) (a : String) : Option (List String) :=
  if a ∈ xs then some (xs.erase a) else none

/-- Lexicographic comparison of character lists, by code point, a shorter
list preceding its extensions — the order Python uses on strings. -/
def lexLe : List Char → List Char → Bool
  | [], _ => true
  | _ :: _, [] => false
  | a :: as, b :: bs => if a < b then true else if b < a then false else lexLe as bs

/-- Python string comparison `a <= b`. -/
def strLe (a b : String) : Bool := lexLe a.data b.data

/-- Python `sorted` on a list of strings: a stable sort for the
lexicographic string order. -/
def sortStrings (xs : List String) : List String :=
  List.insertionSort (fun a b => strLe a b = true) xs

/-- Python `s.endswith(suffix)`. -/
def pyEndsWith (s suffix : String) : Bool :=
  List.isSuffixOf suffix.data s.data

/-- Python `f"{n:0wd}"` for a nonnegative `n`: decimal digits of `n`
left-padded with zeros to width `w`. -/
def zeroPad (w : Nat) (n : Nat) : String :=
  let s := toString n
  String.mk (List.replicate (w - s.length) '0') ++ s

/-! Section: Filesystem model and effect traces -/

/-- The directory tree read by `Caltech101`: whether
`<root>/caltech101/101_ObjectCategories` exists, its listing, and the
listing of each of its subdirectories. -/
structure FS101 where
  exists101 : Bool
  dirs101 : List String
  files101 : String → List String

/-- The directory tree read by `Caltech256`. -/
structure FS256 where
  exists256 : Bool
  dirs256 : List String
  files256 : String → List String

/-- A filesystem / network side effect performed by the code, in order. -/
inductive Effect where
  | makedirs (path : String)
  | existsCheck (path : String)
  | listdir (path : String)
  | downloadAndExtract (url : String) (filename : String) (md5 : String)
  | extractArchive (path : String)
  | rmtree (path : String)
  | removeFile (path : String)
  deriving DecidableEq, Repr

/-- An exception raised during construction. -/
inductive InitError where
  /-- Model of `ValueError` from `verify_str_arg`, naming the invalid value, the
  argument name and the allowed set. -/
  | invalidTargetType (value : String) (arg : String) (allowed : List String)
  /-- Model of `RuntimeError("Dataset not found or corrupted. ...")`. -/
  | datasetNotFound (msg : String)
  /-- Model of `ValueError` from `list.remove` when the element is absent. -/
  | removeNotFound
  deriving DecidableEq, Repr

/-- An exception raised during lookup. -/
inductive GetError where
  | indexError
  deriving DecidableEq, Repr

/-! Section: The Caltech101 data model -/

/-- The state of a constructed `Caltech101` object. -/
structure Dataset101 where
  target_type : List String
  categories : List String
  annotation_categories : List String
  index : List Nat
  y : List Nat
  deriving DecidableEq, Repr

/-- The fixed `name_map` between image-category folders and
annotation-category folders. -/
def nameMap : List (String × String) :=
  [("Faces", "Faces_2"), ("Faces_easy", "Faces_3"),
   ("Motorbikes", "Motorbikes_16"), ("airplanes", "Airplanes_Side_2")]

/-- Model of `name_map[x] if x in name_map else x`. -/
def remapAnn (c : String) : String :=
  match nameMap.lookup c with
  | some r => r
  | none => c

/-- Modelled from the spec: `verify_str_arg` (torchvision/datasets/utils.py,
not among the sources here) is a string-enum validator that raises a
`ValueError` naming the invalid value and the allowed set when the value is
not in the allowed set, and returns the value unchanged otherwise. -/
def verify_str_arg (value arg : String) (valid : List String) :
    Except InitError String :=
  if value ∈ valid then .ok value
  else .error (.invalidTargetType value arg valid)

/-- The list comprehension
`[verify_str_arg(t, "target_type", ("category", "annotation")) for t in target_type]`:
elements validated left to right, the first exception propagating. -/
def verifyTargetTypes : List String → Except InitError (List String)
  | [] => .ok []
  | t :: rest =>
    match verify_str_arg t "target_type" ["category", "annotation"] with
    | .error e => .error e
    | .ok t' =>
      match verifyTargetTypes rest with
      | .error e => .error e
      | .ok rest' => .ok (t' :: rest')

/-- The index-building loop
`for i, c in enumerate(categories): n = ...; index.extend(range(1, n+1)); y.extend(n*[i])`,
given the per-category counts in category order and the id of the first
category.  Returns `(index, y)`. -/
def buildGo (i : Nat) : List Nat → List Nat × List Nat
  | [] => ([], [])
  | n :: rest =>
    (List.range' 1 n ++ (buildGo (i + 1) rest).1,
     List.replicate n i ++ (buildGo (i + 1) rest).2)

/-- Model of `self.root` for `Caltech101`: `os.path.join(root, "caltech101")`. -/
def Caltech101.selfRoot (root : String) : String := pathJoin root "caltech101"

/-- Model of `os.path.join(self.root, "101_ObjectCategories")`. -/
def Caltech101.imageRoot (root : String) : String :=
  pathJoin (Caltech101.selfRoot root) "101_ObjectCategories"

/-- Model of `Caltech101._check_integrity`: does `<self.root>/101_ObjectCategories`
exist. -/
def Caltech101.check_integrity (fs : FS101) : Bool := fs.exists101

/-- The fields computed by the successful tail of `Caltech101.__init__`
from the validated target types and the post-`remove` category list. -/
def Caltech101.build (tt cats : List String) (fs : FS101) : Dataset101 :=
  let counts := cats.map fun c => (fs.files101 c).length
  { target_type := tt
    categories := cats
    annotation_categories := cats.map remapAnn
    index := (buildGo 0 counts).1
    y := (buildGo 0 counts).2 }

/-- Model of `Caltech101.__init__` with `download=False`, returning the trace of
filesystem effects performed and the construction outcome.  Mirrors the
source order: `os.makedirs` first, then target-type validation, then the
integrity check, then the directory scans. -/
def Caltech101.init (root : String) (fs : FS101) (target_type : List String) :
    List Effect × Except InitError Dataset101 :=
  let sroot := Caltech101.selfRoot root
  let iroot := Caltech101.imageRoot root
  match verifyTargetTypes target_type with
  | .error e => ([.makedirs sroot], .error e)
  | .ok tt =>
    if Caltech101.check_integrity fs then
      match pyRemove (sortStrings fs.dirs101) "BACKGROUND_Google" with
      | none =>
        ([.makedirs sroot, .existsCheck iroot, .listdir iroot],
         .error .removeNotFound)
      | some cats =>
        ([.makedirs sroot, .existsCheck iroot, .listdir iroot] ++
           cats.map fun c => .listdir (pathJoin iroot c),
         .ok (Caltech101.build tt cats fs))
    else
      ([.makedirs sroot, .existsCheck iroot],
       .error (.datasetNotFound
         "Dataset not found or corrupted. You can use download=True to download it"))

/-- Model of `Caltech101.__len__`: `len(self.index)`. -/
def Caltech101.len (ds : Dataset101) : Nat := ds.index.length

/-! Section: Caltech101 lookup -/

/-- A single entry appended to the `target` list by `__getitem__`:
either the class id, or an annotation contour represented by the path of
the `.mat` file it is loaded from. -/
inductive TargetVal where
  | category (id : Nat)
  | contour (matPath : String)
  deriving DecidableEq, Repr

/-- The final `target` value: `tuple(target) if len(target) > 1 else target[0]`. -/
inductive Target where
  | tupleOf (vs : List TargetVal)
  | single (v : TargetVal)
  deriving DecidableEq, Repr

/-- The path passed to `Image.open` by `Caltech101.__getitem__`:
evaluates `self.y[index]`, `self.categories[self.y[index]]` and
`self.index[index]` in source order, any failing subscript raising
`IndexError` (`none`). -/
def Caltech101.imagePath (root : String) (ds : Dataset101) (i : Int) :
    Option String :=
  match pyGet ds.y i with
  | none => none
  | some yi =>
    match pyGet ds.categories (yi : Int) with
    | none => none
    | some cat =>
      match pyGet ds.index i with
      | none => none
      | some ord =>
        some (pathJoin (pathJoin (Caltech101.imageRoot root) cat)
          ("image_" ++ zeroPad 4 ord ++ ".jpg"))

/-- The path of the `.mat` file read for the annotation target:
`os.path.join(self.root, "Annotations", self.annotation_categories[self.y[index]], f"annotation_{self.index[index]:04d}.mat")`. -/
def Caltech101.annPath (root : String) (ds : Dataset101) (i : Int) :
    Option String :=
  match pyGet ds.y i with
  | none => none
  | some yi =>
    match pyGet ds.annotation_categories (yi : Int) with
    | none => none
    | some acat =>
      match pyGet ds.index i with
      | none => none
      | some ord =>
        some (pathJoin (pathJoin (pathJoin (Caltech101.selfRoot root)
          "Annotations") acat)
          ("annotation_" ++ zeroPad 4 ord ++ ".mat"))

/-- The loop `for t in self.target_type: ...` building the `target` list.
Each iteration re-subscripts `self.y[index]` (and, for annotations,
`self.annotation_categories[...]` and `self.index[index]`) as the source
does; an out-of-range subscript raises `IndexError`. -/
def Caltech101.targetList (root : String) (ds : Dataset101) (i : Int) :
    List String → Except GetError (List TargetVal)
  | [] => .ok []
  | t :: rest =>
    if t = "category" then
      match pyGet ds.y i with
      | none => .error .indexError
      | some yi =>
        match Caltech101.targetList root ds i rest with
        | .error e => .error e
        | .ok vs => .ok (.category yi :: vs)
    else if t = "annotation" then
      match Caltech101.annPath root ds i with
      | none => .error .indexError
      | some p =>
        match Caltech101.targetList root ds i rest with
        | .error e => .error e
        | .ok vs => .ok (.contour p :: vs)
    else
      Caltech101.targetList root ds i rest

/-- Model of `Caltech101.__getitem__` with `transform = target_transform = None`:
opens the image, builds the target list, and returns
`tuple(target) if len(target) > 1 else target[0]` paired with the image.
`target[0]` on an empty target list raises `IndexError`. -/
def Caltech101.getitem (root : String) (ds : Dataset101) (i : Int) :
    Except GetError (String × Target) :=
  match Caltech101.imagePath root ds i with
  | none => .error .indexError
  | some img =>
    match Caltech101.targetList root ds i ds.target_type with
    | .error e => .error e
    | .ok vs =>
      if vs.length > 1 then .ok (img, .tupleOf vs)
      else
        match vs with
        | [] => .error .indexError
        | v :: _ => .ok (img, .single v)

/-! Section: Caltech101 download -/

/-- URL and checksum pinned in `Caltech101.download`. -/
def Caltech101.url : String :=
  "https://data.caltech.edu/records/mzrjq-6wc02/files/caltech-101.zip?download=1"

/-- Modelled from the spec: the body of `Caltech101.download` past the
integrity guard — the collaborator utilities `download_and_extract_archive`
and `extract_archive` (torchvision/datasets/utils.py, not among the sources
here) fetch the pinned archive, extract the nested archives, and remove
platform-metadata cruft and temporary archives, leaving the canonical
directory layout (so the image root exists afterwards). -/
def Caltech101.downloadBody (root : String) (fs : FS101) :
    List Effect × FS101 :=
  let sroot := Caltech101.selfRoot root
  ([.downloadAndExtract Caltech101.url "caltech-101.zip"
      "3138e1922a9193bfa496528edbbc45d0",
    .extractArchive (pathJoin (pathJoin sroot "caltech-101")
      "101_ObjectCategories.tar.gz"),
    .extractArchive (pathJoin (pathJoin sroot "caltech-101")
      "Annotations.tar"),
    .rmtree (pathJoin sroot "caltech-101"),
    .removeFile (pathJoin sroot "caltech-101.zip")],
   { fs with exists101 := true })

/-- Model of `Caltech101.download`: returns immediately when `_check_integrity()`
holds, otherwise runs the fetch-and-extract body. -/
def Caltech101.download (root : String) (fs : FS101) :
    List Effect × FS101 :=
  if Caltech101.check_integrity fs then ([], fs)
  else Caltech101.downloadBody root fs

/-! Section: The Caltech256 data model -/

/-- The state of a constructed `Caltech256` object. -/
structure Dataset256 where
  categories : List String
  index : List Nat
  y : List Nat
  deriving DecidableEq, Repr

/-- Model of `self.root` for `Caltech256`. -/
def Caltech256.selfRoot (root : String) : String := pathJoin root "caltech256"

/-- Model of `os.path.join(self.root, "256_ObjectCategories")`. -/
def Caltech256.imageRoot (root : String) : String :=
  pathJoin (Caltech256.selfRoot root) "256_ObjectCategories"

/-- Model of `Caltech256._check_integrity`. -/
def Caltech256.check_integrity (fs : FS256) : Bool := fs.exists256

/-- The per-category file count in `Caltech256.__init__`: entries of the
category folder ending in `".jpg"`. -/
def Caltech256.countJpg (fs : FS256) (c : String) : Nat :=
  ((fs.files256 c).filter fun item => pyEndsWith item ".jpg").length

/-- The fields computed by the successful tail of `Caltech256.__init__`. -/
def Caltech256.build (cats : List String) (fs : FS256) : Dataset256 :=
  let counts := cats.map (Caltech256.countJpg fs)
  { categories := cats
    index := (buildGo 0 counts).1
    y := (buildGo 0 counts).2 }

/-- Model of `Caltech256.__init__` with `download=False`. -/
def Caltech256.init (root : String) (fs : FS256) :
    Except InitError Dataset256 :=
  if Caltech256.check_integrity fs then
    .ok (Caltech256.build (sortStrings fs.dirs256) fs)
  else
    .error (.datasetNotFound
      "Dataset not found or corrupted. You can use download=True to download it")

/-- Model of `Caltech256.__len__`: `len(self.index)`. -/
def Caltech256.len (ds : Dataset256) : Nat := ds.index.length

/-- The path passed to `Image.open` by `Caltech256.__getitem__`. -/
def Caltech256.imagePath (root : String) (ds : Dataset256) (i : Int) :
    Option String :=
  match pyGet ds.y i with
  | none => none
  | some yi =>
    match pyGet ds.categories (yi : Int) with
    | none => none
    | some cat =>
      match pyGet ds.index i with
      | none => none
      | some ord =>
        some (pathJoin (pathJoin (Caltech256.imageRoot root) cat)
          (zeroPad 3 (yi + 1) ++ "_" ++ zeroPad 4 ord ++ ".jpg"))

/-- Model of `Caltech256.__getitem__` with `transform = target_transform = None`:
the target is the class id `self.y[index]` alone. -/
def Caltech256.getitem (root : String) (ds : Dataset256) (i : Int) :
    Except GetError (String × Nat) :=
  match Caltech256.imagePath root ds i with
  | none => .error .indexError
  | some img =>
    match pyGet ds.y i with
    | none => .error .indexError
    | some yi => .ok (img, yi)

/-- URL pinned in `Caltech256.download`. -/
def Caltech256.url : String :=
  "https://data.caltech.edu/records/nyy15-4j048/files/256_ObjectCategories.tar"

/-- Modelled from the spec: the body of `Caltech256.download` past the
integrity guard — `download_and_extract_archive` fetches and extracts the
pinned archive, leaving the canonical directory layout. -/
def Caltech256.downloadBody (root : String) (fs : FS256) :
    List Effect × FS256 :=
  ([.downloadAndExtract Caltech256.url "256_ObjectCategories.tar"
      "67b4f42ca05d46448c6bb8ecd2220f6d"],
   { fs with exists256 := true })

/-- Model of `Caltech256.download`. -/
def Caltech256.download (root : String) (fs : FS256) :
    List Effect × FS256 :=
  if Caltech256.check_integrity fs then ([], fs)
  else Caltech256.downloadBody root fs

/-! Section: Concrete synthetic directory trees, for evaluating the model -/

/-- A synthetic Caltech101 tree: categories `"a"` (2 files) and `"b"`
(3 files) plus the background sentinel folder, listed unsorted. -/
def wFS101 : FS101 where
  exists101 := true
  dirs101 := ["b", "BACKGROUND_Google", "a"]
  files101 := fun c =>
    if c = "a" then ["image_0001.jpg", "image_0002.jpg"]
    else if c = "b" then ["image_0001.jpg", "image_0002.jpg", "image_0003.jpg"]
    else []

/-- The dataset `Caltech101.init` builds from `wFS101`. -/
def wDS101 : Dataset101 where
  target_type := ["category"]
  categories := ["a", "b"]
  annotation_categories := ["a", "b"]
  index := [1, 2, 1, 2, 3]
  y := [0, 0, 1, 1, 1]

/-- A synthetic Caltech101 tree whose image root lacks the
`BACKGROUND_Google` sentinel folder. -/
def noBgFS101 : FS101 where
  exists101 := true
  dirs101 := ["a"]
  files101 := fun _ => ["image_0001.jpg"]

/-- A synthetic Caltech101 tree containing the `"Faces"` category. -/
def facesFS101 : FS101 where
  exists101 := true
  dirs101 := ["Faces", "BACKGROUND_Google", "zebra"]
  files101 := fun c => if c = "Faces" then ["image_0001.jpg"] else ["image_0001.jpg"]

/-- The dataset `Caltech101.init` builds from `facesFS101`. -/
def facesDS101 : Dataset101 where
  target_type := ["category"]
  categories := ["Faces", "zebra"]
  annotation_categories := ["Faces_2", "zebra"]
  index := [1, 1]
  y := [0, 1]

/-- The dataset `Caltech101.init` builds from `wFS101` when both target
kinds are requested. -/
def wDS101Both : Dataset101 where
  target_type := ["category", "annotation"]
  categories := ["a", "b"]
  annotation_categories := ["a", "b"]
  index := [1, 2, 1, 2, 3]
  y := [0, 0, 1, 1, 1]

/-- A synthetic Caltech256 tree: categories `"001.a"` (2 jpg files and one
non-jpg file) and `"002.b"` (1 jpg file). -/
def wFS256 : FS256 where
  exists256 := true
  dirs256 := ["002.b", "001.a"]
  files256 := fun c =>
    if c = "001.a" then ["001_0001.jpg", "001_0002.jpg", "RENAME2"]
    else ["002_0001.jpg"]

/-- The dataset `Caltech256.init` builds from `wFS256`. -/
def wDS256 : Dataset256 where
  categories := ["001.a", "002.b"]
  index := [1, 2, 1]
  y := [0, 0, 1]

/-! Section: Facts about the string order used by `sortStrings` -/

theorem lexLe_total : ∀ as bs : List Char, lexLe as bs = true ∨ lexLe bs as = true
  | [], _ => Or.inl rfl
  | _ :: _, [] => Or.inr rfl
  | a :: as, b :: bs => by
    rcases lt_trichotomy a b with hab | hab | hab
    · left; simp [lexLe, hab]
    · subst hab
      rcases lexLe_total as bs with h | h
      · left; simp [lexLe, lt_irrefl, h]
      · right; simp [lexLe, lt_irrefl, h]
    · right; simp [lexLe, hab]

theorem lexLe_trans : ∀ as bs cs : List Char,
    lexLe as bs = true → lexLe bs cs = true → lexLe as cs = true
  | [], _, _, _, _ => rfl
  | a :: as, [], _, h1, _ => by simp [lexLe] at h1
  | a :: as, b :: bs, [], _, h2 => by simp [lexLe] at h2
  | a :: as, b :: bs, c :: cs, h1, h2 => by
    simp only [lexLe] at h1 h2 ⊢
    rcases lt_trichotomy a b with hab | hab | hab
    · rcases lt_trichotomy b c with hbc | hbc | hbc
      · have : a < c := lt_trans hab hbc
        simp [this]
      · subst hbc; simp [hab]
      · rw [if_neg (asymm hbc), if_pos hbc] at h2; exact absurd h2 Bool.false_ne_true
    · subst hab
      rcases lt_trichotomy a c with hbc | hbc | hbc
      · simp [hbc]
      · subst hbc
        rw [if_neg (lt_irrefl a), if_neg (lt_irrefl a)] at h1 h2 ⊢
        exact lexLe_trans as bs cs h1 h2
      · rw [if_neg (asymm hbc), if_pos hbc] at h2; exact absurd h2 Bool.false_ne_true
    · rw [if_neg (asymm hab), if_pos hab] at h1; exact absurd h1 Bool.false_ne_true

instance : IsTotal String (fun a b : String => strLe a b = true) :=
  ⟨fun a b => lexLe_total a.data b.data⟩

instance : IsTrans String (fun a b : String => strLe a b = true) :=
  ⟨fun a b c => lexLe_trans a.data b.data c.data⟩

theorem sortStrings_sorted (xs : List String) :
    List.Sorted (fun a b => strLe a b = true) (sortStrings xs) :=
  List.sorted_insertionSort _ xs

theorem sortStrings_perm (xs : List String) : (sortStrings xs).Perm xs :=
  List.perm_insertionSort _ xs

/-! Section: Facts about `buildGo` -/

theorem buildGo_fst_length (i : Nat) (cs : List Nat) :
    (buildGo i cs).1.length = cs.sum := by
  induction cs generalizing i with
  | nil => rfl
  | cons n rest ih => simp [buildGo, ih]

theorem buildGo_snd_length (i : Nat) (cs : List Nat) :
    (buildGo i cs).2.length = cs.sum := by
  induction cs generalizing i with
  | nil => rfl
  | cons n rest ih => simp [buildGo, ih]

theorem buildGo_snd_mem (i x : Nat) (cs : List Nat)
    (h : x ∈ (buildGo i cs).2) : i ≤ x ∧ x < i + cs.length := by
  induction cs generalizing i with
  | nil => simp [buildGo] at h
  | cons n rest ih =>
    simp only [buildGo, List.mem_append, List.mem_replicate, List.length_cons] at h ⊢
    rcases h with ⟨hn, hx⟩ | h
    · omega
    · have := ih (i + 1) h
      omega

theorem buildGo_snd_pairwise (i : Nat) (cs : List Nat) :
    List.Pairwise (· ≤ ·) (buildGo i cs).2 := by
  induction cs generalizing i with
  | nil => exact List.Pairwise.nil
  | cons n rest ih =>
    refine List.pairwise_append.mpr ⟨?_, ih (i + 1), ?_⟩
    · exact List.pairwise_replicate.mpr (Or.inr le_rfl)
    · intro a ha b hb
      rw [List.eq_of_mem_replicate ha]
      exact le_trans (Nat.le_succ i) (buildGo_snd_mem (i + 1) b rest hb).1

theorem buildGo_fst_drop (i k : Nat) (cs : List Nat) (hk : k ≤ cs.length) :
    (buildGo i cs).1.drop ((cs.take k).sum) = (buildGo (i + k) (cs.drop k)).1 := by
  induction k generalizing i cs with
  | zero => simp
  | succ j ih =>
    match cs with
    | [] => simp at hk
    | n :: rest =>
      have hj : j ≤ rest.length := by simpa using hk
      simp only [List.take_succ_cons, List.sum_cons, List.drop_succ_cons, buildGo]
      rw [← List.drop_drop]
      have hdl : (List.range' 1 n ++ (buildGo (i + 1) rest).1).drop n
          = (buildGo (i + 1) rest).1 := by
        simpa using List.drop_left (List.range' 1 n) ((buildGo (i + 1) rest).1)
      rw [hdl, ih (i + 1) rest hj]
      have harg : i + 1 + j = i + (j + 1) := by omega
      rw [harg]

theorem buildGo_snd_drop (i k : Nat) (cs : List Nat) (hk : k ≤ cs.length) :
    (buildGo i cs).2.drop ((cs.take k).sum) = (buildGo (i + k) (cs.drop k)).2 := by
  induction k generalizing i cs with
  | zero => simp
  | succ j ih =>
    match cs with
    | [] => simp at hk
    | n :: rest =>
      have hj : j ≤ rest.length := by simpa using hk
      simp only [List.take_succ_cons, List.sum_cons, List.drop_succ_cons, buildGo]
      rw [← List.drop_drop]
      have hdl : (List.replicate n i ++ (buildGo (i + 1) rest).2).drop n
          = (buildGo (i + 1) rest).2 := by
        simpa using List.drop_left (List.replicate n i) ((buildGo (i + 1) rest).2)
      rw [hdl, ih (i + 1) rest hj]
      have harg : i + 1 + j = i + (j + 1) := by omega
      rw [harg]

theorem buildGo_snd_count (i k : Nat) (cs : List Nat) (hk : k < cs.length) :
    ((buildGo i cs).2).count (i + k) = cs.get ⟨k, hk⟩ := by
  induction cs generalizing i k with
  | nil => simp at hk
  | cons n rest ih =>
    simp only [buildGo, List.count_append]
    match k with
    | 0 =>
      have h0 : ((buildGo (i + 1) rest).2).count (i + 0) = 0 := by
        refine List.count_eq_zero.mpr fun hmem => ?_
        have := buildGo_snd_mem (i + 1) (i + 0) rest hmem
        omega
      rw [h0, List.count_replicate]
      simp
    | j + 1 =>
      have hne : i ≠ i + (j + 1) := by omega
      have h0 : (List.replicate n i).count (i + (j + 1)) = 0 := by
        simp [List.count_replicate, hne]
      rw [h0]
      have hj : j < rest.length := by simpa using hk
      have harg : i + (j + 1) = (i + 1) + j := by omega
      rw [Nat.zero_add, harg, ih (i + 1) j hj]
      rfl

/-! Section: Facts about `pyGet` -/

theorem pyGet_natCast {α : Type} (xs : List α) (k : Nat) :
    pyGet xs (k : Int) = xs[k]? := by
  simp [pyGet]

theorem pyGet_of_lt {α : Type} (xs : List α) (k : Nat) (h : k < xs.length) :
    pyGet xs (k : Int) = some xs[k] := by
  rw [pyGet_natCast, List.getElem?_eq_getElem h]

theorem pyGet_none_of_ge {α : Type} (xs : List α) (i : Int)
    (h : (xs.length : Int) ≤ i) : pyGet xs i = none := by
  have h0 : 0 ≤ i := le_trans (Int.ofNat_nonneg _) h
  rw [pyGet, if_pos h0, List.getElem?_eq_none]
  omega

theorem pyGet_none_of_lt_neg {α : Type} (xs : List α) (i : Int)
    (h : i < -(xs.length : Int)) : pyGet xs i = none := by
  rw [pyGet, if_neg (by omega), if_neg (by omega)]

theorem pyGet_neg_shift {α : Type} (xs : List α) (i : Int)
    (h1 : -(xs.length : Int) ≤ i) (h2 : i < 0) :
    pyGet xs i = pyGet xs (i + xs.length) := by
  rw [pyGet, if_neg (by omega), if_pos (by omega)]
  rw [pyGet, if_pos (by omega)]
  congr 1
  omega

theorem pyGet_eq_none_iff {α : Type} (xs : List α) (i : Int) :
    pyGet xs i = none ↔ (xs.length : Int) ≤ i ∨ i < -(xs.length : Int) := by
  constructor
  · intro h
    by_contra hc
    push_neg at hc
    obtain ⟨hlt, hge⟩ := hc
    rcases le_or_lt 0 i with h0 | h0
    · rw [pyGet, if_pos h0] at h
      rw [List.getElem?_eq_none_iff] at h
      omega
    · rw [pyGet_neg_shift xs i hge h0, pyGet, if_pos (by omega),
        List.getElem?_eq_none_iff] at h
      omega
  · rintro (h | h)
    · exact pyGet_none_of_ge xs i h
    · exact pyGet_none_of_lt_neg xs i h

/-! Section: Facts about target-type validation -/

theorem verifyTargetTypes_ok {tt tt' : List String}
    (h : verifyTargetTypes tt = .ok tt') :
    tt' = tt ∧ ∀ t ∈ tt, t = "category" ∨ t = "annotation" := by
  induction tt generalizing tt' with
  | nil =>
    simp only [verifyTargetTypes] at h
    cases h
    exact ⟨rfl, by simp⟩
  | cons t rest ih =>
    simp only [verifyTargetTypes, verify_str_arg] at h
    by_cases hm : t ∈ ["category", "annotation"]
    · rw [if_pos hm] at h
      cases hr : verifyTargetTypes rest with
      | error e => rw [hr] at h; exact absurd h (by simp)
      | ok rest' =>
        rw [hr] at h
        obtain ⟨heq, hall⟩ := ih hr
        cases h
        subst heq
        refine ⟨rfl, ?_⟩
        intro s hs
        rcases List.mem_cons.mp hs with hs | hs
        · subst hs
          simpa using hm
        · exact hall s hs
    · rw [if_neg hm] at h
      exact absurd h (by simp)

theorem verifyTargetTypes_ok_of_valid (tt : List String)
    (h : ∀ t ∈ tt, t = "category" ∨ t = "annotation") :
    verifyTargetTypes tt = .ok tt := by
  induction tt with
  | nil => rfl
  | cons t rest ih =>
    have ht : t ∈ ["category", "annotation"] := by
      rcases h t (List.mem_cons_self t rest) with h' | h' <;> simp [h']
    simp only [verifyTargetTypes, verify_str_arg, if_pos ht]
    rw [ih fun s hs => h s (List.mem_cons_of_mem t hs)]

theorem verifyTargetTypes_error {tt : List String} {t : String}
    (hmem : t ∈ tt) (hbad : t ≠ "category" ∧ t ≠ "annotation") :
    ∃ t', (t' ≠ "category" ∧ t' ≠ "annotation") ∧
      verifyTargetTypes tt =
        .error (.invalidTargetType t' "target_type" ["category", "annotation"]) := by
  induction tt with
  | nil => simp at hmem
  | cons s rest ih =>
    by_cases hs : s ∈ ["category", "annotation"]
    · have hts : t ≠ s := by
        intro h; subst h
        simp only [List.mem_cons, List.mem_singleton] at hs
        tauto
      have hmem' : t ∈ rest := by
        rcases List.mem_cons.mp hmem with h | h
        · exact absurd h hts
        · exact h
      obtain ⟨t', hbad', herr⟩ := ih hmem'
      refine ⟨t', hbad', ?_⟩
      simp only [verifyTargetTypes, verify_str_arg, if_pos hs, herr]
    · refine ⟨s, ?_, ?_⟩
      · simp only [List.mem_cons, List.mem_singleton] at hs
        tauto
      · simp only [verifyTargetTypes, verify_str_arg, if_neg hs]

/-! Section: Inversion of construction -/

theorem init101_ok {root : String} {fs : FS101} {tt : List String}
    {ds : Dataset101} (h : (Caltech101.init root fs tt).2 = .ok ds) :
    verifyTargetTypes tt = .ok ds.target_type ∧ fs.exists101 = true ∧
      pyRemove (sortStrings fs.dirs101) "BACKGROUND_Google" = some ds.categories ∧
      ds = Caltech101.build ds.target_type ds.categories fs := by
  unfold Caltech101.init at h
  cases hv : verifyTargetTypes tt with
  | error e => rw [hv] at h; exact absurd h (by simp)
  | ok tt' =>
    rw [hv] at h
    dsimp only at h
    cases he : Caltech101.check_integrity fs with
    | false => rw [he] at h; exact absurd h (by simp)
    | true =>
      rw [he] at h
      rw [if_pos rfl] at h
      cases hr : pyRemove (sortStrings fs.dirs101) "BACKGROUND_Google" with
      | none => rw [hr] at h; exact absurd h (by simp)
      | some cats =>
        rw [hr] at h
        dsimp only at h
        simp only [Except.ok.injEq] at h
        subst h
        refine ⟨?_, he, ?_, rfl⟩
        · simpa [Caltech101.build] using hv
        · simpa [Caltech101.build] using hr

theorem init256_ok {root : String} {fs : FS256} {ds : Dataset256}
    (h : Caltech256.init root fs = .ok ds) :
    fs.exists256 = true ∧ ds = Caltech256.build (sortStrings fs.dirs256) fs := by
  unfold Caltech256.init at h
  cases he : Caltech256.check_integrity fs with
  | false => rw [he] at h; exact absurd h (by simp)
  | true =>
    rw [he] at h
    rw [if_pos rfl] at h
    simp only [Except.ok.injEq] at h
    exact ⟨he, h.symm⟩

/-! Section: Derived construction lemmas -/

theorem mem_sortStrings {a : String} {xs : List String} :
    a ∈ sortStrings xs ↔ a ∈ xs :=
  (sortStrings_perm xs).mem_iff

theorem init101_fields {root : String} {fs : FS101} {tt : List String}
    {ds : Dataset101} (h : (Caltech101.init root fs tt).2 = .ok ds) :
    ds.index = (buildGo 0 (ds.categories.map fun c => (fs.files101 c).length)).1 ∧
    ds.y = (buildGo 0 (ds.categories.map fun c => (fs.files101 c).length)).2 ∧
    ds.annotation_categories = ds.categories.map remapAnn := by
  obtain ⟨-, -, -, hds⟩ := init101_ok h
  refine ⟨?_, ?_, ?_⟩ <;>
    (conv_lhs => rw [hds]) <;> rfl

theorem init256_fields {root : String} {fs : FS256} {ds : Dataset256}
    (h : Caltech256.init root fs = .ok ds) :
    ds.categories = sortStrings fs.dirs256 ∧
    ds.index = (buildGo 0 (ds.categories.map (Caltech256.countJpg fs))).1 ∧
    ds.y = (buildGo 0 (ds.categories.map (Caltech256.countJpg fs))).2 := by
  obtain ⟨-, hds⟩ := init256_ok h
  have hc : ds.categories = sortStrings fs.dirs256 := by rw [hds]; rfl
  refine ⟨hc, ?_, ?_⟩ <;> rw [hc] <;> (conv_lhs => rw [hds]) <;> rfl

theorem init101_spec (root : String) (fs : FS101) (tt : List String)
    (hv : verifyTargetTypes tt = .ok tt) (he : fs.exists101 = true) :
    (Caltech101.init root fs tt).2 =
      if "BACKGROUND_Google" ∈ fs.dirs101 then
        .ok (Caltech101.build tt
          ((sortStrings fs.dirs101).erase "BACKGROUND_Google") fs)
      else .error .removeNotFound := by
  unfold Caltech101.init
  rw [hv]
  dsimp only
  have hck : Caltech101.check_integrity fs = true := he
  rw [hck, if_pos rfl]
  by_cases hb : "BACKGROUND_Google" ∈ fs.dirs101
  · rw [if_pos hb]
    have hrm : pyRemove (sortStrings fs.dirs101) "BACKGROUND_Google" =
        some ((sortStrings fs.dirs101).erase "BACKGROUND_Google") := by
      rw [pyRemove, if_pos (mem_sortStrings.mpr hb)]
    rw [hrm]
  · rw [if_neg hb]
    have hrm : pyRemove (sortStrings fs.dirs101) "BACKGROUND_Google" = none := by
      rw [pyRemove, if_neg (fun hc => hb (mem_sortStrings.mp hc))]
    rw [hrm]

/-! Section: Per-index lookup lemmas -/

theorem lookups101 {root : String} {fs : FS101} {tt : List String}
    {ds : Dataset101} (h : (Caltech101.init root fs tt).2 = .ok ds)
    (k : Nat) (hk : k < Caltech101.len ds) :
    ∃ yi ord cat,
      pyGet ds.y (k : Int) = some yi ∧
      pyGet ds.index (k : Int) = some ord ∧
      yi < ds.categories.length ∧
      pyGet ds.categories (yi : Int) = some cat ∧
      pyGet ds.annotation_categories (yi : Int) = some (remapAnn cat) ∧
      Caltech101.imagePath root ds (k : Int) =
        some (pathJoin (pathJoin (Caltech101.imageRoot root) cat)
          ("image_" ++ zeroPad 4 ord ++ ".jpg")) ∧
      Caltech101.annPath root ds (k : Int) =
        some (pathJoin (pathJoin (pathJoin (Caltech101.selfRoot root)
          "Annotations") (remapAnn cat))
          ("annotation_" ++ zeroPad 4 ord ++ ".mat")) := by
  obtain ⟨hidx, hy, hann⟩ := init101_fields h
  have hleny : ds.y.length = ds.index.length := by
    rw [hidx, hy, buildGo_fst_length, buildGo_snd_length]
  have hky : k < ds.y.length := by rw [hleny]; exact hk
  have hki : k < ds.index.length := hk
  have hyrange : ds.y[k] < ds.categories.length := by
    have hmem2 : ds.y[k] ∈ (buildGo 0
        (ds.categories.map fun c => (fs.files101 c).length)).2 := by
      rw [← hy]; exact List.getElem_mem hky
    have := buildGo_snd_mem 0 _ _ hmem2
    simpa using this.2
  have hyann : ds.y[k] < ds.annotation_categories.length := by
    rw [hann, List.length_map]; exact hyrange
  have hgann : ds.annotation_categories[ds.y[k]] =
      remapAnn ds.categories[ds.y[k]] := by
    simp only [hann, List.getElem_map]
  refine ⟨ds.y[k], ds.index[k], ds.categories[ds.y[k]],
    pyGet_of_lt _ _ hky, pyGet_of_lt _ _ hki, hyrange,
    pyGet_of_lt _ _ hyrange, ?_, ?_, ?_⟩
  · rw [pyGet_of_lt _ _ hyann, hgann]
  · simp only [Caltech101.imagePath, pyGet_of_lt _ _ hky,
      pyGet_of_lt _ _ hyrange, pyGet_of_lt _ _ hki]
  · simp only [Caltech101.annPath, pyGet_of_lt _ _ hky,
      pyGet_of_lt _ _ hyann, pyGet_of_lt _ _ hki, hgann]

theorem lookups256 {root : String} {fs : FS256} {ds : Dataset256}
    (h : Caltech256.init root fs = .ok ds)
    (k : Nat) (hk : k < Caltech256.len ds) :
    ∃ yi ord cat,
      pyGet ds.y (k : Int) = some yi ∧
      pyGet ds.index (k : Int) = some ord ∧
      yi < ds.categories.length ∧
      pyGet ds.categories (yi : Int) = some cat ∧
      Caltech256.imagePath root ds (k : Int) =
        some (pathJoin (pathJoin (Caltech256.imageRoot root) cat)
          (zeroPad 3 (yi + 1) ++ "_" ++ zeroPad 4 ord ++ ".jpg")) := by
  obtain ⟨hcats, hidx, hy⟩ := init256_fields h
  have hleny : ds.y.length = ds.index.length := by
    rw [hidx, hy, buildGo_fst_length, buildGo_snd_length]
  have hky : k < ds.y.length := by rw [hleny]; exact hk
  have hki : k < ds.index.length := hk
  have hyrange : ds.y[k] < ds.categories.length := by
    have hmem2 : ds.y[k] ∈ (buildGo 0
        (ds.categories.map (Caltech256.countJpg fs))).2 := by
      rw [← hy]; exact List.getElem_mem hky
    have := buildGo_snd_mem 0 _ _ hmem2
    simpa using this.2
  refine ⟨ds.y[k], ds.index[k], ds.categories[ds.y[k]],
    pyGet_of_lt _ _ hky, pyGet_of_lt _ _ hki, hyrange,
    pyGet_of_lt _ _ hyrange, ?_⟩
  simp only [Caltech256.imagePath, pyGet_of_lt _ _ hky,
    pyGet_of_lt _ _ hyrange, pyGet_of_lt _ _ hki]

/-! Section: Lookup congruence in the subscript -/

theorem imagePath101_congr (root : String) (ds : Dataset101) {i j : Int}
    (hy : pyGet ds.y i = pyGet ds.y j)
    (hx : pyGet ds.index i = pyGet ds.index j) :
    Caltech101.imagePath root ds i = Caltech101.imagePath root ds j := by
  rw [Caltech101.imagePath, Caltech101.imagePath, hy, hx]

theorem annPath101_congr (root : String) (ds : Dataset101) {i j : Int}
    (hy : pyGet ds.y i = pyGet ds.y j)
    (hx : pyGet ds.index i = pyGet ds.index j) :
    Caltech101.annPath root ds i = Caltech101.annPath root ds j := by
  rw [Caltech101.annPath, Caltech101.annPath, hy, hx]

theorem targetList_congr (root : String) (ds : Dataset101) {i j : Int}
    (hy : pyGet ds.y i = pyGet ds.y j)
    (hx : pyGet ds.index i = pyGet ds.index j) (tt : List String) :
    Caltech101.targetList root ds i tt = Caltech101.targetList root ds j tt := by
  induction tt with
  | nil => rfl
  | cons t rest ih =>
    rw [Caltech101.targetList, Caltech101.targetList, hy,
      annPath101_congr root ds hy hx, ih]

theorem getitem101_congr (root : String) (ds : Dataset101) {i j : Int}
    (hy : pyGet ds.y i = pyGet ds.y j)
    (hx : pyGet ds.index i = pyGet ds.index j) :
    Caltech101.getitem root ds i = Caltech101.getitem root ds j := by
  rw [Caltech101.getitem, Caltech101.getitem,
    imagePath101_congr root ds hy hx, targetList_congr root ds hy hx]

theorem imagePath256_congr (root : String) (ds : Dataset256) {i j : Int}
    (hy : pyGet ds.y i = pyGet ds.y j)
    (hx : pyGet ds.index i = pyGet ds.index j) :
    Caltech256.imagePath root ds i = Caltech256.imagePath root ds j := by
  rw [Caltech256.imagePath, Caltech256.imagePath, hy, hx]

theorem getitem256_congr (root : String) (ds : Dataset256) {i j : Int}
    (hy : pyGet ds.y i = pyGet ds.y j)
    (hx : pyGet ds.index i = pyGet ds.index j) :
    Caltech256.getitem root ds i = Caltech256.getitem root ds j := by
  rw [Caltech256.getitem, Caltech256.getitem,
    imagePath256_congr root ds hy hx, hy]

/-! Section: Claim C1 -/

/-- Claim C1, counterexample:  The claim says a lookup at any `i` outside
`[0, N)` fails with an index error, in particular for `-N ≤ i < 0.`  On the
synthetic five-sample Caltech101 dataset, `get(-1)` does not fail: Python's
negative indexing wraps around and returns the last sample. -/
theorem C1_counterexample :
    ((-1 : Int) < 0) ∧
    (Caltech101.init "r" wFS101 ["category"]).2 = .ok wDS101 ∧
    Caltech101.getitem "r" wDS101 (-1) =
      .ok (pathJoin (pathJoin (Caltech101.imageRoot "r") "b") "image_0003.jpg",
        .single (.category 1)) :=
  ⟨by decide, rfl, rfl⟩

/-- Claim C1, amended:  For both variants, `get(i)` fails with an index error
for `i ≥ size()` and for `i < -size()`; for `-size() ≤ i < 0` the lookup
instead wraps around, behaving exactly like `get(i + size())`, following
Python list-subscript semantics. -/
theorem C1_theorem (root : String) (ds : Dataset101) (ds2 : Dataset256)
    (i : Int) (h : ds.y.length = ds.index.length)
    (h2 : ds2.y.length = ds2.index.length) :
    (((ds.index.length : Int) ≤ i ∨ i < -(ds.index.length : Int)) →
      Caltech101.getitem root ds i = .error .indexError) ∧
    (-(ds.index.length : Int) ≤ i → i < 0 →
      Caltech101.getitem root ds i =
        Caltech101.getitem root ds (i + (ds.index.length : Int))) ∧
    (((ds2.index.length : Int) ≤ i ∨ i < -(ds2.index.length : Int)) →
      Caltech256.getitem root ds2 i = .error .indexError) ∧
    (-(ds2.index.length : Int) ≤ i → i < 0 →
      Caltech256.getitem root ds2 i =
        Caltech256.getitem root ds2 (i + (ds2.index.length : Int))) := by
  refine ⟨?_, ?_, ?_, ?_⟩
  · intro hout
    have hyn : pyGet ds.y i = none := by
      apply (pyGet_eq_none_iff _ _).mpr
      rw [h]
      exact hout
    rw [Caltech101.getitem, Caltech101.imagePath, hyn]
  · intro hge hlt
    have hy : pyGet ds.y i = pyGet ds.y (i + (ds.index.length : Int)) := by
      have hs := pyGet_neg_shift ds.y i (by rw [h]; exact hge) hlt
      rw [h] at hs
      exact hs
    have hx : pyGet ds.index i = pyGet ds.index (i + (ds.index.length : Int)) :=
      pyGet_neg_shift ds.index i hge hlt
    exact getitem101_congr root ds hy hx
  · intro hout
    have hyn : pyGet ds2.y i = none := by
      apply (pyGet_eq_none_iff _ _).mpr
      rw [h2]
      exact hout
    rw [Caltech256.getitem, Caltech256.imagePath, hyn]
  · intro hge hlt
    have hy : pyGet ds2.y i = pyGet ds2.y (i + (ds2.index.length : Int)) := by
      have hs := pyGet_neg_shift ds2.y i (by rw [h2]; exact hge) hlt
      rw [h2] at hs
      exact hs
    have hx : pyGet ds2.index i = pyGet ds2.index (i + (ds2.index.length : Int)) :=
      pyGet_neg_shift ds2.index i hge hlt
    exact getitem256_congr root ds2 hy hx

/-- Claim C1, witness: instantiated at `i = -2` on the synthetic datasets. -/
theorem C1_witness :
    Caltech101.getitem "r" wDS101 (-2) =
      Caltech101.getitem "r" wDS101 (-2 + (wDS101.index.length : Int)) ∧
    Caltech256.getitem "r" wDS256 (-2) =
      Caltech256.getitem "r" wDS256 (-2 + (wDS256.index.length : Int)) :=
  ⟨( C1_theorem "r" wDS101 wDS256 (-2) rfl rfl).2.1 (by decide) (by decide),
   ( C1_theorem "r" wDS101 wDS256 (-2) rfl rfl).2.2.2 (by decide) (by decide)⟩

/-! Section: Claim C2 -/

/-- Claim C2, counterexample:  Constructing with the invalid target kind
`"foo"` does fail with the validation error naming the value and the
allowed set — but the effect trace up to the failure is not empty: the
constructor has already created the dataset root with `os.makedirs`, a
filesystem write, before validating. -/
theorem C2_counterexample :
    (Caltech101.init "r" wFS101 ["foo"]).2 =
      .error (.invalidTargetType "foo" "target_type" ["category", "annotation"]) ∧
    (Caltech101.init "r" wFS101 ["foo"]).1 =
      [.makedirs (pathJoin "r" "caltech101")] ∧
    (Caltech101.init "r" wFS101 ["foo"]).1 ≠ [] :=
  ⟨rfl, rfl, by decide⟩

/-- Claim C2, amended:  For every target-kind value outside
`{"category", "annotation"}`, constructing the variant-A dataset fails with
a validation error naming an invalid value and the allowed set; before
failing, the construction performs exactly one filesystem write — the
`os.makedirs` call creating the dataset root — and no other filesystem
access. -/
theorem C2_theorem (root : String) (fs : FS101) (tt : List String)
    (t : String) (hmem : t ∈ tt)
    (hbad : t ≠ "category" ∧ t ≠ "annotation") :
    (∃ t', (t' ≠ "category" ∧ t' ≠ "annotation") ∧
      (Caltech101.init root fs tt).2 =
        .error (.invalidTargetType t' "target_type" ["category", "annotation"])) ∧
    (Caltech101.init root fs tt).1 = [.makedirs (Caltech101.selfRoot root)] := by
  obtain ⟨t', hbad', herr⟩ := verifyTargetTypes_error hmem hbad
  constructor
  · refine ⟨t', hbad', ?_⟩
    unfold Caltech101.init
    rw [herr]
  · unfold Caltech101.init
    rw [herr]

/-- Claim C2, witness: instantiated at target-kind list `["foo"]`. -/
theorem C2_witness :
    (∃ t', (t' ≠ "category" ∧ t' ≠ "annotation") ∧
      (Caltech101.init "r" wFS101 ["foo"]).2 =
        .error (.invalidTargetType t' "target_type" ["category", "annotation"])) ∧
    (Caltech101.init "r" wFS101 ["foo"]).1 =
      [.makedirs (Caltech101.selfRoot "r")] :=
  C2_theorem "r" wFS101 ["foo"] "foo" (by decide) (by decide)

/-! Section: Claim C3 -/

/-- Claim C3, counterexample:  The claim says construction succeeds whether
or not the background sentinel folder exists.  On a tree without
`BACKGROUND_Google`, construction instead fails: `list.remove` raises
`ValueError` because the element is absent. -/
theorem C3_counterexample :
    "BACKGROUND_Google" ∉ noBgFS101.dirs101 ∧
    noBgFS101.exists101 = true ∧
    (Caltech101.init "r" noBgFS101 ["category"]).2 = .error .removeNotFound :=
  ⟨by decide, rfl, rfl⟩

/-- Claim C3, amended:  In variant-A construction the category list is the
lexicographically sorted listing of the image root's subdirectories with
the background sentinel removed — but the removal is unconditional:
construction succeeds only when the sentinel folder exists, and fails with
a `ValueError` when it does not. -/
theorem C3_theorem (root : String) (fs : FS101) (tt : List String)
    (hv : verifyTargetTypes tt = .ok tt) (he : fs.exists101 = true) :
    ("BACKGROUND_Google" ∈ fs.dirs101 →
      ∃ ds, (Caltech101.init root fs tt).2 = .ok ds ∧
        ds.categories = (sortStrings fs.dirs101).erase "BACKGROUND_Google" ∧
        List.Sorted (fun a b => strLe a b = true) ds.categories ∧
        ds.categories.Perm (fs.dirs101.erase "BACKGROUND_Google")) ∧
    ("BACKGROUND_Google" ∉ fs.dirs101 →
      (Caltech101.init root fs tt).2 = .error .removeNotFound) := by
  have hspec := init101_spec root fs tt hv he
  constructor
  · intro hb
    rw [hspec, if_pos hb]
    refine ⟨_, rfl, rfl, ?_, ?_⟩
    · exact List.Pairwise.sublist (List.erase_sublist _ _)
        (sortStrings_sorted fs.dirs101)
    · exact (sortStrings_perm fs.dirs101).erase _
  · intro hb
    rw [hspec, if_neg hb]

/-- Claim C3, witness: instantiated on the synthetic tree containing the sentinel. -/
theorem C3_witness :
    ∃ ds, (Caltech101.init "r" wFS101 ["category"]).2 = .ok ds ∧
      ds.categories = (sortStrings wFS101.dirs101).erase "BACKGROUND_Google" ∧
      List.Sorted (fun a b => strLe a b = true) ds.categories ∧
      ds.categories.Perm (wFS101.dirs101.erase "BACKGROUND_Google") :=
  ( C3_theorem "r" wFS101 ["category"] rfl rfl).1 (by decide)

/-! Section: Claim C4 -/

/-- Claim C4:  For both variants, `size()` equals the sum over categories of
that category's file count (all directory entries in variant A, `.jpg`
entries in variant B), and equals the length of the internal sample index
(both parallel arrays). -/
theorem C4_theorem (root : String) (fs : FS101) (tt : List String)
    (ds : Dataset101) (fs2 : FS256) (ds2 : Dataset256)
    (h : (Caltech101.init root fs tt).2 = .ok ds)
    (h2 : Caltech256.init root fs2 = .ok ds2) :
    (Caltech101.len ds =
        (ds.categories.map fun c => (fs.files101 c).length).sum ∧
      Caltech101.len ds = ds.index.length ∧
      ds.y.length = ds.index.length) ∧
    (Caltech256.len ds2 =
        (ds2.categories.map (Caltech256.countJpg fs2)).sum ∧
      Caltech256.len ds2 = ds2.index.length ∧
      ds2.y.length = ds2.index.length) := by
  obtain ⟨hidx, hy, -⟩ := init101_fields h
  obtain ⟨-, hidx2, hy2⟩ := init256_fields h2
  refine ⟨⟨?_, rfl, ?_⟩, ⟨?_, rfl, ?_⟩⟩
  · rw [Caltech101.len, hidx, buildGo_fst_length]
  · rw [hidx, hy, buildGo_fst_length, buildGo_snd_length]
  · rw [Caltech256.len, hidx2, buildGo_fst_length]
  · rw [hidx2, hy2, buildGo_fst_length, buildGo_snd_length]

/-- Claim C4, witness: instantiated on the synthetic datasets (sizes 5 and 3). -/
theorem C4_witness :
    (Caltech101.len wDS101 =
        (wDS101.categories.map fun c => (wFS101.files101 c).length).sum ∧
      Caltech101.len wDS101 = wDS101.index.length ∧
      wDS101.y.length = wDS101.index.length) ∧
    (Caltech256.len wDS256 =
        (wDS256.categories.map (Caltech256.countJpg wFS256)).sum ∧
      Caltech256.len wDS256 = wDS256.index.length ∧
      wDS256.y.length = wDS256.index.length) :=
  C4_theorem "r" wFS101 ["category"] wDS101 wFS256 wDS256 rfl rfl

/-! Section: Claim C5 -/

theorem buildGo_block (counts : List Nat) (k : Nat) (hk : k < counts.length) :
    ((buildGo 0 counts).2.drop ((counts.take k).sum)).take counts[k] =
      List.replicate counts[k] k ∧
    ((buildGo 0 counts).1.drop ((counts.take k).sum)).take counts[k] =
      List.range' 1 counts[k] ∧
    (buildGo 0 counts).2.count k = counts[k] := by
  refine ⟨?_, ?_, ?_⟩
  · have hd := buildGo_snd_drop 0 k counts (le_of_lt hk)
    rw [Nat.zero_add] at hd
    rw [hd, List.drop_eq_getElem_cons hk, buildGo]
    exact List.take_left' (List.length_replicate _ _)
  · have hd := buildGo_fst_drop 0 k counts (le_of_lt hk)
    rw [Nat.zero_add] at hd
    rw [hd, List.drop_eq_getElem_cons hk, buildGo]
    exact List.take_left' (by simp)
  · have hc := buildGo_snd_count 0 k counts hk
    rw [Nat.zero_add, List.get_eq_getElem] at hc
    exact hc

/-- Claim C5:  For both variants: for every category position `k` with
`n_k` files, the sample index holds exactly `n_k` entries with category id
`k` (the `count` conjunct), they are consecutive, occupying the block that
starts after the files of the earlier categories (the `drop`/`take`
conjuncts), with ordinals running `1..n_k` in that block; every stored
category id is in `[0, number_of_categories)`, and the id sequence is
non-decreasing. -/
theorem C5_theorem (root : String) (fs : FS101) (tt : List String)
    (ds : Dataset101) (fs2 : FS256) (ds2 : Dataset256)
    (h : (Caltech101.init root fs tt).2 = .ok ds)
    (h2 : Caltech256.init root fs2 = .ok ds2) :
    ((∀ k, (hk : k < ds.categories.length) →
      (ds.y.drop
          (((ds.categories.map fun c => (fs.files101 c).length).take k).sum)).take
          (fs.files101 ds.categories[k]).length =
        List.replicate (fs.files101 ds.categories[k]).length k ∧
      (ds.index.drop
          (((ds.categories.map fun c => (fs.files101 c).length).take k).sum)).take
          (fs.files101 ds.categories[k]).length =
        List.range' 1 (fs.files101 ds.categories[k]).length ∧
      ds.y.count k = (fs.files101 ds.categories[k]).length) ∧
      (∀ x ∈ ds.y, x < ds.categories.length) ∧
      List.Sorted (· ≤ ·) ds.y) ∧
    ((∀ k, (hk : k < ds2.categories.length) →
      (ds2.y.drop
          (((ds2.categories.map (Caltech256.countJpg fs2)).take k).sum)).take
          (Caltech256.countJpg fs2 ds2.categories[k]) =
        List.replicate (Caltech256.countJpg fs2 ds2.categories[k]) k ∧
      (ds2.index.drop
          (((ds2.categories.map (Caltech256.countJpg fs2)).take k).sum)).take
          (Caltech256.countJpg fs2 ds2.categories[k]) =
        List.range' 1 (Caltech256.countJpg fs2 ds2.categories[k]) ∧
      ds2.y.count k = Caltech256.countJpg fs2 ds2.categories[k]) ∧
      (∀ x ∈ ds2.y, x < ds2.categories.length) ∧
      List.Sorted (· ≤ ·) ds2.y) := by
  obtain ⟨hidx, hy, -⟩ := init101_fields h
  obtain ⟨-, hidx2, hy2⟩ := init256_fields h2
  refine ⟨⟨?_, ?_, ?_⟩, ⟨?_, ?_, ?_⟩⟩
  · intro k hk
    have hk' : k < (ds.categories.map fun c => (fs.files101 c).length).length := by
      rw [List.length_map]; exact hk
    have hb := buildGo_block (ds.categories.map fun c => (fs.files101 c).length) k hk'
    rw [List.getElem_map] at hb
    rw [hy, hidx]
    exact hb
  · intro x hx
    rw [hy] at hx
    have := buildGo_snd_mem 0 x _ hx
    simpa using this.2
  · rw [hy]
    exact buildGo_snd_pairwise 0 _
  · intro k hk
    have hk' : k < (ds2.categories.map (Caltech256.countJpg fs2)).length := by
      rw [List.length_map]; exact hk
    have hb := buildGo_block (ds2.categories.map (Caltech256.countJpg fs2)) k hk'
    rw [List.getElem_map] at hb
    rw [hy2, hidx2]
    exact hb
  · intro x hx
    rw [hy2] at hx
    have := buildGo_snd_mem 0 x _ hx
    simpa using this.2
  · rw [hy2]
    exact buildGo_snd_pairwise 0 _

/-- Claim C5, witness: instantiated on the synthetic datasets. -/
theorem C5_witness :
    ((∀ k, (hk : k < wDS101.categories.length) →
      (wDS101.y.drop
          (((wDS101.categories.map fun c => (wFS101.files101 c).length).take k).sum)).take
          (wFS101.files101 wDS101.categories[k]).length =
        List.replicate (wFS101.files101 wDS101.categories[k]).length k ∧
      (wDS101.index.drop
          (((wDS101.categories.map fun c => (wFS101.files101 c).length).take k).sum)).take
          (wFS101.files101 wDS101.categories[k]).length =
        List.range' 1 (wFS101.files101 wDS101.categories[k]).length ∧
      wDS101.y.count k = (wFS101.files101 wDS101.categories[k]).length) ∧
      (∀ x ∈ wDS101.y, x < wDS101.categories.length) ∧
      List.Sorted (· ≤ ·) wDS101.y) ∧
    ((∀ k, (hk : k < wDS256.categories.length) →
      (wDS256.y.drop
          (((wDS256.categories.map (Caltech256.countJpg wFS256)).take k).sum)).take
          (Caltech256.countJpg wFS256 wDS256.categories[k]) =
        List.replicate (Caltech256.countJpg wFS256 wDS256.categories[k]) k ∧
      (wDS256.index.drop
          (((wDS256.categories.map (Caltech256.countJpg wFS256)).take k).sum)).take
          (Caltech256.countJpg wFS256 wDS256.categories[k]) =
        List.range' 1 (Caltech256.countJpg wFS256 wDS256.categories[k]) ∧
      wDS256.y.count k = Caltech256.countJpg wFS256 wDS256.categories[k]) ∧
      (∀ x ∈ wDS256.y, x < wDS256.categories.length) ∧
      List.Sorted (· ≤ ·) wDS256.y) :=
  C5_theorem "r" wFS101 ["category"] wDS101 wFS256 wDS256 rfl rfl

/-! Section: Claim C6 -/

/-- Claim C6:  For every in-range index, the image filename computed by the
lookup follows the fixed per-variant zero-padded pattern: variant A opens
`<image root>/<category>/image_%04d.jpg` with the sample's ordinal, and
variant B opens `<image root>/<category>/%03d_%04d.jpg` with the 1-based
category number and the sample's ordinal. -/
theorem C6_theorem (root : String) (fs : FS101) (tt : List String)
    (ds : Dataset101) (fs2 : FS256) (ds2 : Dataset256)
    (h : (Caltech101.init root fs tt).2 = .ok ds)
    (h2 : Caltech256.init root fs2 = .ok ds2) :
    (∀ k : Nat, k < Caltech101.len ds →
      ∃ yi ord cat, pyGet ds.y (k : Int) = some yi ∧
        pyGet ds.index (k : Int) = some ord ∧
        pyGet ds.categories (yi : Int) = some cat ∧
        Caltech101.imagePath root ds (k : Int) =
          some (pathJoin (pathJoin (Caltech101.imageRoot root) cat)
            ("image_" ++ zeroPad 4 ord ++ ".jpg"))) ∧
    (∀ k : Nat, k < Caltech256.len ds2 →
      ∃ yi ord cat, pyGet ds2.y (k : Int) = some yi ∧
        pyGet ds2.index (k : Int) = some ord ∧
        pyGet ds2.categories (yi : Int) = some cat ∧
        Caltech256.imagePath root ds2 (k : Int) =
          some (pathJoin (pathJoin (Caltech256.imageRoot root) cat)
            (zeroPad 3 (yi + 1) ++ "_" ++ zeroPad 4 ord ++ ".jpg"))) := by
  constructor
  · intro k hk
    obtain ⟨yi, ord, cat, a1, a2, -, a4, -, a6, -⟩ := lookups101 h k hk
    exact ⟨yi, ord, cat, a1, a2, a4, a6⟩
  · intro k hk
    obtain ⟨yi, ord, cat, a1, a2, -, a4, a5⟩ := lookups256 h2 k hk
    exact ⟨yi, ord, cat, a1, a2, a4, a5⟩

/-- Claim C6, witness: instantiated on the synthetic datasets. -/
theorem C6_witness :
    (∀ k : Nat, k < Caltech101.len wDS101 →
      ∃ yi ord cat, pyGet wDS101.y (k : Int) = some yi ∧
        pyGet wDS101.index (k : Int) = some ord ∧
        pyGet wDS101.categories (yi : Int) = some cat ∧
        Caltech101.imagePath "r" wDS101 (k : Int) =
          some (pathJoin (pathJoin (Caltech101.imageRoot "r") cat)
            ("image_" ++ zeroPad 4 ord ++ ".jpg"))) ∧
    (∀ k : Nat, k < Caltech256.len wDS256 →
      ∃ yi ord cat, pyGet wDS256.y (k : Int) = some yi ∧
        pyGet wDS256.index (k : Int) = some ord ∧
        pyGet wDS256.categories (yi : Int) = some cat ∧
        Caltech256.imagePath "r" wDS256 (k : Int) =
          some (pathJoin (pathJoin (Caltech256.imageRoot "r") cat)
            (zeroPad 3 (yi + 1) ++ "_" ++ zeroPad 4 ord ++ ".jpg"))) :=
  C6_theorem "r" wFS101 ["category"] wDS101 wFS256 wDS256 rfl rfl

/-! Section: Claim C7 -/

/-- Claim C7:  In variant A, for every in-range index the image lookup path
uses the category's own folder name while the annotation lookup path uses
the remapped folder name; the remap table sends `"Faces"` to `"Faces_2"`,
and any category name not in the fixed table is remapped to itself, so
both paths then use the identical name. -/
theorem C7_theorem (root : String) (fs : FS101) (tt : List String)
    (ds : Dataset101) (h : (Caltech101.init root fs tt).2 = .ok ds) :
    (∀ k : Nat, k < Caltech101.len ds →
      ∃ yi ord cat, pyGet ds.y (k : Int) = some yi ∧
        pyGet ds.index (k : Int) = some ord ∧
        pyGet ds.categories (yi : Int) = some cat ∧
        Caltech101.imagePath root ds (k : Int) =
          some (pathJoin (pathJoin (Caltech101.imageRoot root) cat)
            ("image_" ++ zeroPad 4 ord ++ ".jpg")) ∧
        Caltech101.annPath root ds (k : Int) =
          some (pathJoin (pathJoin (pathJoin (Caltech101.selfRoot root)
            "Annotations") (remapAnn cat))
            ("annotation_" ++ zeroPad 4 ord ++ ".mat"))) ∧
    remapAnn "Faces" = "Faces_2" ∧
    (∀ c : String, nameMap.lookup c = none → remapAnn c = c) := by
  refine ⟨?_, rfl, ?_⟩
  · intro k hk
    obtain ⟨yi, ord, cat, a1, a2, -, a4, -, a6, a7⟩ := lookups101 h k hk
    exact ⟨yi, ord, cat, a1, a2, a4, a6, a7⟩
  · intro c hc
    rw [remapAnn, hc]

/-- Claim C7, witness: instantiated on the synthetic tree containing the `"Faces"`
category. -/
theorem C7_witness :
    (∀ k : Nat, k < Caltech101.len facesDS101 →
      ∃ yi ord cat, pyGet facesDS101.y (k : Int) = some yi ∧
        pyGet facesDS101.index (k : Int) = some ord ∧
        pyGet facesDS101.categories (yi : Int) = some cat ∧
        Caltech101.imagePath "r" facesDS101 (k : Int) =
          some (pathJoin (pathJoin (Caltech101.imageRoot "r") cat)
            ("image_" ++ zeroPad 4 ord ++ ".jpg")) ∧
        Caltech101.annPath "r" facesDS101 (k : Int) =
          some (pathJoin (pathJoin (pathJoin (Caltech101.selfRoot "r")
            "Annotations") (remapAnn cat))
            ("annotation_" ++ zeroPad 4 ord ++ ".mat"))) ∧
    remapAnn "Faces" = "Faces_2" ∧
    (∀ c : String, nameMap.lookup c = none → remapAnn c = c) :=
  C7_theorem "r" facesFS101 ["category"] facesDS101 rfl

/-! Section: Claim C8 -/

/-- Claim C8:  For every in-range index: variant-A lookup produces, besides
the opened image, an ordered pair of target values when both target kinds
are requested (in the requested order) and the single requested value when
one kind is requested; the annotation value is loaded from the file
`annotation_%04d.mat` inside the remapped per-category annotation folder.
Variant-B lookup always returns the class id alone. -/
theorem C8_theorem (root : String) (fs : FS101) (tt : List String)
    (ds : Dataset101) (fs2 : FS256) (ds2 : Dataset256)
    (h : (Caltech101.init root fs tt).2 = .ok ds)
    (h2 : Caltech256.init root fs2 = .ok ds2) :
    (∀ k : Nat, k < Caltech101.len ds →
      ∃ yi ord img apath acat,
        pyGet ds.y (k : Int) = some yi ∧
        pyGet ds.index (k : Int) = some ord ∧
        pyGet ds.annotation_categories (yi : Int) = some acat ∧
        Caltech101.imagePath root ds (k : Int) = some img ∧
        Caltech101.annPath root ds (k : Int) = some apath ∧
        apath = pathJoin (pathJoin (pathJoin (Caltech101.selfRoot root)
          "Annotations") acat) ("annotation_" ++ zeroPad 4 ord ++ ".mat") ∧
        (ds.target_type = ["category"] →
          Caltech101.getitem root ds (k : Int) =
            .ok (img, .single (.category yi))) ∧
        (ds.target_type = ["annotation"] →
          Caltech101.getitem root ds (k : Int) =
            .ok (img, .single (.contour apath))) ∧
        (ds.target_type = ["category", "annotation"] →
          Caltech101.getitem root ds (k : Int) =
            .ok (img, .tupleOf [.category yi, .contour apath])) ∧
        (ds.target_type = ["annotation", "category"] →
          Caltech101.getitem root ds (k : Int) =
            .ok (img, .tupleOf [.contour apath, .category yi]))) ∧
    (∀ k : Nat, k < Caltech256.len ds2 →
      ∃ yi img, pyGet ds2.y (k : Int) = some yi ∧
        Caltech256.getitem root ds2 (k : Int) = .ok (img, yi)) := by
  constructor
  · intro k hk
    obtain ⟨yi, ord, cat, a1, a2, -, a4, a5, a6, a7⟩ := lookups101 h k hk
    refine ⟨yi, ord, _, _, remapAnn cat, a1, a2, a5, a6, a7, rfl,
      ?_, ?_, ?_, ?_⟩ <;>
      intro htt <;>
      simp [Caltech101.getitem, Caltech101.targetList, a1, a6, a7, htt]
  · intro k hk
    obtain ⟨yi, ord, cat, a1, a2, -, a4, a5⟩ := lookups256 h2 k hk
    refine ⟨yi, pathJoin (pathJoin (Caltech256.imageRoot root) cat)
      (zeroPad 3 (yi + 1) ++ "_" ++ zeroPad 4 ord ++ ".jpg"), a1, ?_⟩
    rw [Caltech256.getitem, a5, a1]

/-- Claim C8, witness: instantiated on the synthetic dataset requesting both target
kinds. -/
theorem C8_witness :
    (∀ k : Nat, k < Caltech101.len wDS101Both →
      ∃ yi ord img apath acat,
        pyGet wDS101Both.y (k : Int) = some yi ∧
        pyGet wDS101Both.index (k : Int) = some ord ∧
        pyGet wDS101Both.annotation_categories (yi : Int) = some acat ∧
        Caltech101.imagePath "r" wDS101Both (k : Int) = some img ∧
        Caltech101.annPath "r" wDS101Both (k : Int) = some apath ∧
        apath = pathJoin (pathJoin (pathJoin (Caltech101.selfRoot "r")
          "Annotations") acat) ("annotation_" ++ zeroPad 4 ord ++ ".mat") ∧
        (wDS101Both.target_type = ["category"] →
          Caltech101.getitem "r" wDS101Both (k : Int) =
            .ok (img, .single (.category yi))) ∧
        (wDS101Both.target_type = ["annotation"] →
          Caltech101.getitem "r" wDS101Both (k : Int) =
            .ok (img, .single (.contour apath))) ∧
        (wDS101Both.target_type = ["category", "annotation"] →
          Caltech101.getitem "r" wDS101Both (k : Int) =
            .ok (img, .tupleOf [.category yi, .contour apath])) ∧
        (wDS101Both.target_type = ["annotation", "category"] →
          Caltech101.getitem "r" wDS101Both (k : Int) =
            .ok (img, .tupleOf [.contour apath, .category yi]))) ∧
    (∀ k : Nat, k < Caltech256.len wDS256 →
      ∃ yi img, pyGet wDS256.y (k : Int) = some yi ∧
        Caltech256.getitem "r" wDS256 (k : Int) = .ok (img, yi)) :=
  C8_theorem "r" wFS101 ["category", "annotation"] wDS101Both wFS256 wDS256
    rfl rfl

/-! Section: Claim C9 -/

/-- Claim C9:  Whenever the expected dataset directory already exists
(`_check_integrity()` holds), `download` is a no-op for both variants:
it performs no filesystem or network effects and leaves the filesystem
unchanged, and calling it twice is the same as calling it once. -/
theorem C9_theorem (root : String) (fs : FS101) (fs2 : FS256)
    (h : Caltech101.check_integrity fs = true)
    (h2 : Caltech256.check_integrity fs2 = true) :
    (Caltech101.download root fs = ([], fs) ∧
      Caltech101.download root (Caltech101.download root fs).2 = ([], fs)) ∧
    (Caltech256.download root fs2 = ([], fs2) ∧
      Caltech256.download root (Caltech256.download root fs2).2 = ([], fs2)) := by
  have d1 : Caltech101.download root fs = ([], fs) := by
    rw [Caltech101.download, if_pos h]
  have d2 : Caltech256.download root fs2 = ([], fs2) := by
    rw [Caltech256.download, if_pos h2]
  exact ⟨⟨d1, by rw [d1]; exact d1⟩, ⟨d2, by rw [d2]; exact d2⟩⟩

/-- Claim C9, witness: instantiated on the synthetic trees, whose image roots exist. -/
theorem C9_witness :
    (Caltech101.download "r" wFS101 = ([], wFS101) ∧
      Caltech101.download "r" (Caltech101.download "r" wFS101).2 =
        ([], wFS101)) ∧
    (Caltech256.download "r" wFS256 = ([], wFS256) ∧
      Caltech256.download "r" (Caltech256.download "r" wFS256).2 =
        ([], wFS256)) :=
  C9_theorem "r" wFS101 wFS256 rfl rfl

/-! Section: Claim C10 -/

/-- Claim C10:  Constructing the variant-A dataset with an empty list of
target kinds passes validation and construction succeeds (on an intact
tree); but then every in-range lookup fails with an index error, raised
when `target[0]` selects the single value from the empty target list. -/
theorem C10_theorem (root : String) (fs : FS101)
    (he : fs.exists101 = true) (hb : "BACKGROUND_Google" ∈ fs.dirs101) :
    ∃ ds, (Caltech101.init root fs []).2 = .ok ds ∧ ds.target_type = [] ∧
      ∀ i : Int, 0 ≤ i → i < (Caltech101.len ds : Int) →
        Caltech101.getitem root ds i = .error .indexError := by
  have hspec := init101_spec root fs [] rfl he
  rw [if_pos hb] at hspec
  refine ⟨_, hspec, rfl, ?_⟩
  intro i h0 hN
  cases him : Caltech101.imagePath root
      (Caltech101.build [] ((sortStrings fs.dirs101).erase "BACKGROUND_Google")
        fs) i with
  | none => rw [Caltech101.getitem, him]
  | some img =>
    rw [Caltech101.getitem, him]
    rfl

/-- Claim C10, witness: instantiated on the synthetic tree. -/
theorem C10_witness :
    ∃ ds, (Caltech101.init "r" wFS101 []).2 = .ok ds ∧ ds.target_type = [] ∧
      ∀ i : Int, 0 ≤ i → i < (Caltech101.len ds : Int) →
        Caltech101.getitem "r" ds i = .error .indexError :=
  C10_theorem "r" wFS101 rfl (by decide)
